import Mathlib

/-!
Shallow embedding of the Monte-Carlo cyber-risk simulator
(`cyber_risk_simulator.py`, `simulation_types.py`) and proofs about it.

Numeric values (Python floats) are modelled as rationals `ℚ`; raised Python
exceptions are modelled with `Except PyExc`; the SciPy random draws are
modelled as injected streams of values, with an explicit cursor recording how
far the process-global stream has been consumed across invocations.
-/

namespace CyberRisk

deriving instance DecidableEq for Except

/-- Python's `str.upper()` (character-wise; coincides with Python on the ASCII
identifiers used in this code base). -/
def pyUpper (s : String) : String := ⟨s.data.map Char.toUpper⟩

/-- Python's `str.lower()` (character-wise; coincides with Python on the ASCII
identifiers used in this code base). -/
def pyLower (s : String) : String := ⟨s.data.map Char.toLower⟩

/-- Model of the Python exceptions the simulator can raise.  Each constructor
corresponds to one `raise` site (or, for `nameError`, to the evaluation of an
f-string that references an unbound name before the `raise` is reached). -/
inductive PyExc where
  /-- `ValueError(f"Invalid revenue: ...")` in `get_revenue_band_by_revenue`. -/
  | invalidRevenue (revenue : ℚ)
  /-- `NameError`: the default arm of `get_revenue_boundaries_by_band` first runs
  `logging.error(f"Invalid revenue band: -revenue-")` where the name `revenue`
  is not defined in that function's scope, so the f-string raises `NameError`
  before the intended `ValueError` line can run. -/
  | nameErrorRevenueUndefined
  /-- `ValueError(f"Unknown industry: ...")` in `_get_industry_revenue_params`. -/
  | unknownIndustry (industry : String)
  /-- `ValueError(f"Invalid revenue band: ... for industry: ...")` in
  `_get_industry_revenue_params`. -/
  | unknownBandForIndustry (band : String) (industry : String)
  /-- `ValueError(f"Invalid industry string: ...")` in `Industry.from_string`. -/
  | invalidIndustryString (s : String)
deriving DecidableEq, Repr

/-- `RevenueBand` enum from `simulation_types.py`. -/
inductive RevenueBand where
  | BAND_10M
  | BAND_100M
  | BAND_500M
  | BAND_1B
deriving DecidableEq, Repr

/-- The `.value` of each `RevenueBand` member (its label string). -/
def RevenueBand.value : RevenueBand → String
  | .BAND_10M => "10M"
  | .BAND_100M => "100M"
  | .BAND_500M => "500M"
  | .BAND_1B => "1B"

/-- `revenue_band_dict = -band.value: band for band in RevenueBand-`:
an association list from label strings to bands, in declaration order. -/
def revenue_band_dict : List (String × RevenueBand) :=
  [RevenueBand.BAND_10M, .BAND_100M, .BAND_500M, .BAND_1B].map (fun b => (b.value, b))

/-- `parse_revenue_band(band_str)`: `revenue_band_dict.get(band_str, None)`.
Returns `none` for an unknown label; never raises. -/
def parse_revenue_band (band_str : String) : Option RevenueBand :=
  revenue_band_dict.lookup band_str

/-- `Industry` enum from `simulation_types.py`. -/
inductive Industry where
  | HEALTHCARE
  | FINANCE
  | RETAIL
  | MANUFACTURING
  | CONSTRUCTION
deriving DecidableEq, Repr

/-- The `.name` of each `Industry` member. -/
def Industry.name : Industry → String
  | .HEALTHCARE => "HEALTHCARE"
  | .FINANCE => "FINANCE"
  | .RETAIL => "RETAIL"
  | .MANUFACTURING => "MANUFACTURING"
  | .CONSTRUCTION => "CONSTRUCTION"

/-- The name-indexed member map that backs `cls[industry_str.upper()]`. -/
def industryMembers : List (String × Industry) :=
  [Industry.HEALTHCARE, .FINANCE, .RETAIL, .MANUFACTURING, .CONSTRUCTION].map
    (fun i => (i.name, i))

/-- `Industry.from_string(industry_str)`: `cls[industry_str.upper()]`, turning
the `KeyError` of a failed member lookup into a `ValueError`. -/
def Industry.from_string (industry_str : String) : Except PyExc Industry :=
  match industryMembers.lookup (pyUpper industry_str) with
  | some i => .ok i
  | none => .error (.invalidIndustryString industry_str)

/-- `get_revenue_band_by_revenue(revenue)`: the `match` ladder mapping a
revenue to its band, raising `ValueError` for `revenue < 0` and for
`revenue > 1000`. -/
def get_revenue_band_by_revenue (revenue : ℚ) : Except PyExc RevenueBand :=
  if revenue < 0 then .error (.invalidRevenue revenue)
  else if revenue ≤ 10 then .ok .BAND_10M
  else if revenue ≤ 100 then .ok .BAND_100M
  else if revenue ≤ 500 then .ok .BAND_500M
  else if revenue ≤ 1000 then .ok .BAND_1B
  else .error (.invalidRevenue revenue)

/-- Argument model for `get_revenue_boundaries_by_band`.  Python lets any
object be passed; `known b` is one of the four enum members, and `foreign`
stands for any other value that still has a `.value` attribute (so the
opening `logging.debug` f-string succeeds and control reaches the default
`case _` arm). -/
inductive BandArg where
  | known (b : RevenueBand)
  | foreign
deriving DecidableEq, Repr

/-- `get_revenue_boundaries_by_band(revenue_band)`: the four members map to
their `(lower, upper)` pairs; the default arm evaluates
`f"Invalid revenue band: -revenue-"` whose name `revenue` is unbound in this
function, so it raises `NameError`, never reaching the `raise ValueError`
statement on the following line. -/
def get_revenue_boundaries_by_band : BandArg → Except PyExc (ℚ × ℚ)
  | .known .BAND_10M => .ok (0, 10)
  | .known .BAND_100M => .ok (10, 100)
  | .known .BAND_500M => .ok (100, 500)
  | .known .BAND_1B => .ok (500, 1000)
  | .foreign => .error .nameErrorRevenueUndefined

/-- One entry of the stats table: `-"frequency": ..., "cost": ...-`. -/
structure StatsEntry where
  frequency : ℚ
  cost : ℚ
deriving DecidableEq, Repr

/-- The parsed JSON stats table: industry name (lower case) to band label to
parameters.  Modelled as nested association lists. -/
def StatsTable : Type := List (String × List (String × StatsEntry))

/-- `_get_industry_revenue_params(industry, revenue)`: in the code's order, it
first checks `industry.name.lower() not in stats`, THEN classifies the revenue
into a band (which may raise `ValueError` for out-of-range revenue), then
checks the band key. -/
def _get_industry_revenue_params (stats : StatsTable) (industry : Industry)
    (revenue : ℚ) : Except PyExc (ℚ × ℚ) :=
  match stats.lookup (pyLower industry.name) with
  | none => .error (.unknownIndustry industry.name)
  | some bandTable =>
    match get_revenue_band_by_revenue revenue with
    | .error e => .error e
    | .ok revenue_band =>
      match bandTable.lookup revenue_band.value with
      | none => .error (.unknownBandForIndustry revenue_band.value industry.name)
      | some entry => .ok (entry.frequency, entry.cost)

/-- One row of the `results` DataFrame (`simulation_id`, `attack_id`, `cost`),
as appended by `_simulate_losses`. -/
structure Row where
  simulation_id : ℕ
  attack_id : ℕ
  cost : ℚ
deriving DecidableEq, Repr

/-- The mutable attributes of a `CyberRiskSimulator` instance. -/
structure SimState where
  industry : Industry
  revenue : ℚ
  num_simulations : ℕ
  freq_param : ℚ
  sev_param : ℚ
  results : List Row
deriving DecidableEq, Repr

/-- `CyberRiskSimulator.__init__`: stores the arguments, eagerly resolves the
frequency/severity parameters via `_get_industry_revenue_params` (propagating
its errors), and initialises `results` to an empty table.  The run count
`num_simulations` is stored without any validation. -/
def CyberRiskSimulator.init (stats : StatsTable) (industry : Industry)
    (revenue : ℚ) (num_simulations : ℕ) : Except PyExc SimState :=
  match _get_industry_revenue_params stats industry revenue with
  | .error e => .error e
  | .ok (f, c) =>
    .ok { industry := industry, revenue := revenue,
          num_simulations := num_simulations,
          freq_param := f, sev_param := c, results := [] }

/-- The SciPy random draws, modelled as injected streams: `poissonDraws k` is
the `k`-th value produced by `poisson.rvs`, and `normDraws k mean std` is the
value of the `k`-th call to `norm.rvs(mean, std)`.  The code itself calls the
module-level `poisson.rvs` / `norm.rvs` (process-global, unseeded RNG); the
cursor below records how much of each stream has been consumed so far. -/
structure RandomSource where
  poissonDraws : ℕ → ℕ
  normDraws : ℕ → ℚ → ℚ → ℚ

/-- Position reached in the global random streams. -/
structure RngCursor where
  pPos : ℕ
  nPos : ℕ
deriving DecidableEq, Repr

/-- `_simulate_attacks`: `poisson.rvs(self.freq_param, size=self.num_simulations)`,
one count per run, consuming `num_simulations` values of the Poisson stream. -/
def _simulate_attacks (st : SimState) (src : RandomSource) (pPos : ℕ) : List ℕ :=
  (List.range st.num_simulations).map (fun j => src.poissonDraws (pPos + j))

/-- The simulation/attack loop of `_simulate_losses`, with `draw k` standing
for the `k`-th call `norm.rvs(self.sev_param, self.sev_param * 0.1)`.
Arguments: remaining `attack_counts`, current run index `i` (0-based), and the
number `k` of cost draws made so far.  Returns the per-run total losses and
the rows accumulated in `data_to_append`. -/
def _simulate_losses_go (draw : ℕ → ℚ) : List ℕ → ℕ → ℕ → List ℚ × List Row
  | [], _, _ => ([], [])
  | attack_count :: rest, i, k =>
    let costs := (List.range attack_count).map (fun a => draw (k + a))
    let rows := (List.range attack_count).map
      (fun a => Row.mk (i + 1) (a + 1) (draw (k + a)))
    let tail := _simulate_losses_go draw rest (i + 1) (k + attack_count)
    (costs.sum :: tail.1, rows ++ tail.2)

/-- The cost-draw function used by `_simulate_losses`: each attack calls
`norm.rvs(self.sev_param, self.sev_param * 0.1)` (10% standard deviation). -/
def sevDraw (st : SimState) (src : RandomSource) (k : ℕ) : ℚ :=
  src.normDraws k st.sev_param (st.sev_param * (1 / 10))

/-- `_simulate_losses(attack_counts)`: computes the per-run losses, and as a
side effect replaces `self.results` with `pd.concat([self.results, new rows])`
(appending — never clearing — the per-event rows).  Returns the losses, the
updated state, and the new Normal-stream position. -/
def _simulate_losses (st : SimState) (src : RandomSource) (nPos : ℕ)
    (attack_counts : List ℕ) : List ℚ × SimState × ℕ :=
  let r := _simulate_losses_go (fun k => sevDraw st src (nPos + k)) attack_counts 0 0
  (r.1, { st with results := st.results ++ r.2 }, nPos + attack_counts.sum)

/-- Sort ascending, as NumPy's order statistics do internally. -/
def npSorted (l : List ℚ) : List ℚ :=
  List.insertionSort (fun a b => a ≤ b) l

/-- `np.mean`: sum divided by length (the empty case, NaN in NumPy, is mapped
to 0 and never reached by the claims). -/
def npMean (l : List ℚ) : ℚ :=
  l.sum / l.length

/-- `np.median`: middle element of the sorted sample for odd length, average
of the two middle elements for even length. -/
def npMedian (l : List ℚ) : ℚ :=
  let s := npSorted l
  let n := l.length
  if n % 2 = 1 then s.getD (n / 2) 0
  else (s.getD (n / 2 - 1) 0 + s.getD (n / 2) 0) / 2

/-- `np.min` (NumPy raises on an empty array; 0 here, never reached). -/
def npMin : List ℚ → ℚ
  | [] => 0
  | x :: xs => xs.foldl min x

/-- `np.max` (NumPy raises on an empty array; 0 here, never reached). -/
def npMax : List ℚ → ℚ
  | [] => 0
  | x :: xs => xs.foldl max x

/-- `np.var` with `ddof=0`: the population variance, i.e. the square of
`np.std(l)`. -/
def npVariance (l : List ℚ) : ℚ :=
  (l.map (fun x => (x - npMean l) ^ 2)).sum / l.length

/-- `np.percentile(l, p)` with the default linear interpolation between
closest ranks: `h = (n-1) * p/100`, and the result interpolates between the
sorted values at positions `floor h` and `floor h + 1`. -/
def npPercentile (p : ℚ) (l : List ℚ) : ℚ :=
  let s := npSorted l
  let h : ℚ := ((l.length : ℚ) - 1) * p / 100
  let lo := (⌊h⌋).toNat
  let xlo := s.getD lo 0
  let xhi := s.getD (lo + 1) xlo
  xlo + (h - (lo : ℚ)) * (xhi - xlo)

/-- The `SimulationMetrics` named tuple.  `std_dev_loss` in the code is
`np.std(losses)`; it is represented here through its square `variance_loss`
(so that the record stays decidable), with `SimulationMetrics.std_dev_loss`
defined below as the real square root of `variance_loss`. -/
structure SimulationMetrics where
  total_loss : ℚ
  mean_loss : ℚ
  median_loss : ℚ
  variance_loss : ℚ
  min_loss : ℚ
  max_loss : ℚ
  percentile_95_loss : ℚ
deriving DecidableEq, Repr

/-- `std_dev_loss = np.std(losses) = sqrt(np.var(losses))`. -/
noncomputable def SimulationMetrics.std_dev_loss (m : SimulationMetrics) : ℝ :=
  Real.sqrt (m.variance_loss : ℝ)

/-- The metric block at the end of `run_simulation`, one field per `np.*`
call. -/
def aggregate (losses : List ℚ) : SimulationMetrics :=
  { total_loss := losses.sum
    mean_loss := npMean losses
    median_loss := npMedian losses
    variance_loss := npVariance losses
    min_loss := npMin losses
    max_loss := npMax losses
    percentile_95_loss := npPercentile 95 losses }

/-- Everything `run_simulation` produces: the returned metrics, the mutated
instance state, the advanced global-stream cursor, and the rows written to the
CSV file when `save_to_csv` was set. -/
structure RunOutcome where
  metrics : SimulationMetrics
  state : SimState
  cursor : RngCursor
  csvRows : Option (List Row)
deriving Repr

/-- `run_simulation(save_to_csv=False)`: draw attack counts, compute losses
(appending per-event rows to `self.results`), optionally dump `self.results`
to CSV, then aggregate the seven metrics. -/
def run_simulation (st : SimState) (src : RandomSource) (cur : RngCursor)
    (save_to_csv : Bool := false) : RunOutcome :=
  let attack_counts := _simulate_attacks st src cur.pPos
  let r := _simulate_losses st src cur.nPos attack_counts
  let losses := r.1
  let st' := r.2.1
  { metrics := aggregate losses
    state := st'
    cursor := { pPos := cur.pPos + st.num_simulations, nPos := r.2.2 }
    csvRows := if save_to_csv then some st'.results else none }

/-- Classification of each modelled exception by its Python class: every raise
site in the simulator constructs a `ValueError` except the default arm of
`get_revenue_boundaries_by_band`, which fails with a `NameError` first. -/
def PyExc.isValueError : PyExc → Bool
  | .nameErrorRevenueUndefined => false
  | _ => true

/-- Stats fixture mirroring the shape of the JSON stats file: the healthcare
industry with a single 100M band entry, frequency 0.3 and cost 5.2 (the values
the unit test injects). -/
def statsFixture : StatsTable :=
  [("healthcare", [("100M", ⟨0.3, 5.2⟩)])]

/-- Random-source fixture reproducing the unit test's mocks: `poisson.rvs`
yields the attack counts 1, 0, 2, 3, 1 (cyclically), and every `norm.rvs`
call returns 5.2. -/
def srcFixture : RandomSource :=
  { poissonDraws := fun p => [1, 0, 2, 3, 1].getD (p % 5) 0
    normDraws := fun _ _ _ => 5.2 }

/-- Simulator state with parameters (0.3, 5.2) and 5 runs. -/
def stFixture : SimState :=
  { industry := .HEALTHCARE, revenue := 100, num_simulations := 5,
    freq_param := 0.3, sev_param := 5.2, results := [] }

/-- Simulator state with parameters (0.3, 5.2) and a single run. -/
def stOne : SimState :=
  { industry := .HEALTHCARE, revenue := 100, num_simulations := 1,
    freq_param := 0.3, sev_param := 5.2, results := [] }

/-- Random source forcing an attack count of 0 in every run. -/
def zeroSrc : RandomSource :=
  { poissonDraws := fun _ => 0
    normDraws := fun _ _ _ => 5 }

/-- Random source whose first Poisson draw is 1 and later draws are 0. -/
def divergeSrc : RandomSource :=
  { poissonDraws := fun p => if p = 0 then 1 else 0
    normDraws := fun _ _ _ => 5 }

/-- Random source agreeing with `divergeSrc` on the draws a 1-run invocation
consumes (Poisson index 0, Normal call 0) and differing beyond them. -/
def divergeSrcAgree : RandomSource :=
  { poissonDraws := fun p => if p = 0 then 1 else 7
    normDraws := fun k _ _ => if k = 0 then 5 else 99 }

/-- Random source whose every cost draw is the negative value -3. -/
def negSrc : RandomSource :=
  { poissonDraws := fun _ => 1
    normDraws := fun _ _ _ => -3 }

/-- Lowercasing the enum name, as `industry.name.lower()` does. -/
theorem pyLower_HEALTHCARE : pyLower "HEALTHCARE" = "healthcare" := by decide

/-- The range of the fixture's run count, spelt out. -/
theorem range5 : List.range 5 = [0, 1, 2, 3, 4] := by rfl

/-- Constructing the fixture simulator through `__init__` yields `stFixture`. -/
theorem init_statsFixture :
    CyberRiskSimulator.init statsFixture .HEALTHCARE 100 5 = .ok stFixture := by
  norm_num [CyberRiskSimulator.init, _get_industry_revenue_params, statsFixture, Industry.name,
    get_revenue_band_by_revenue, RevenueBand.value, List.lookup, pyLower_HEALTHCARE, stFixture]

/-- Out-of-range revenue makes the classifier raise `InvalidRevenue`. -/
theorem classify_out_of_range (r : ℚ) (h : r < 0 ∨ 1000 < r) :
    get_revenue_band_by_revenue r = .error (.invalidRevenue r) := by
  unfold get_revenue_band_by_revenue
  rcases h with h | h
  · rw [if_pos h]
  · rw [if_neg (by linarith), if_neg (by linarith), if_neg (by linarith),
      if_neg (by linarith), if_neg (by linarith)]

/-- Case analysis of the classifier on in-range revenue: the four bands arise
exactly on [0,10], (10,100], (100,500], (500,1000]. -/
theorem classify_cases (r : ℚ) (h0 : 0 ≤ r) (h1 : r ≤ 1000) :
    (r ≤ 10 ∧ get_revenue_band_by_revenue r = .ok .BAND_10M) ∨
    (10 < r ∧ r ≤ 100 ∧ get_revenue_band_by_revenue r = .ok .BAND_100M) ∨
    (100 < r ∧ r ≤ 500 ∧ get_revenue_band_by_revenue r = .ok .BAND_500M) ∨
    (500 < r ∧ r ≤ 1000 ∧ get_revenue_band_by_revenue r = .ok .BAND_1B) := by
  unfold get_revenue_band_by_revenue
  rw [if_neg (not_lt.mpr h0)]
  by_cases h10 : r ≤ 10
  · exact Or.inl ⟨h10, by rw [if_pos h10]⟩
  by_cases h100 : r ≤ 100
  · exact Or.inr (Or.inl ⟨by linarith, h100, by rw [if_neg h10, if_pos h100]⟩)
  by_cases h500 : r ≤ 500
  · exact Or.inr (Or.inr (Or.inl ⟨by linarith, h500, by rw [if_neg h10, if_neg h100, if_pos h500]⟩))
  · exact Or.inr (Or.inr (Or.inr ⟨by linarith, h1,
      by rw [if_neg h10, if_neg h100, if_neg h500, if_pos h1]⟩))

/-- Length of the loss array equals the number of runs. -/
theorem go_length (draw : ℕ → ℚ) (counts : List ℕ) (i k : ℕ) :
    (_simulate_losses_go draw counts i k).1.length = counts.length := by
  induction counts generalizing i k with
  | nil => rfl
  | cons c rest ih => simp [_simulate_losses_go, ih]

/-- Run j's total in the loss loop is the sum of the draws made for its
attacks, at the stream offsets following the earlier runs' draws. -/
theorem go_getD (draw : ℕ → ℚ) (counts : List ℕ) (i k j : ℕ) (h : j < counts.length) :
    (_simulate_losses_go draw counts i k).1.getD j 0 =
      ((List.range (counts.getD j 0)).map (fun a => draw (k + (counts.take j).sum + a))).sum := by
  induction counts generalizing i k j with
  | nil => simp at h
  | cons c rest ih =>
    cases j with
    | zero => simp [_simulate_losses_go]
    | succ j =>
      have hj : j < rest.length := by simpa using h
      simp only [_simulate_losses_go, List.getD_cons_succ, List.take_succ_cons, List.sum_cons]
      rw [ih (i + 1) (k + c) j hj]
      simp [Nat.add_assoc]

/-- The loss loop only reads the draws at the offsets it consumes. -/
theorem go_congr (draw1 draw2 : ℕ → ℚ) (counts : List ℕ) (i k : ℕ)
    (h : ∀ a, a < counts.sum → draw1 (k + a) = draw2 (k + a)) :
    _simulate_losses_go draw1 counts i k = _simulate_losses_go draw2 counts i k := by
  induction counts generalizing i k with
  | nil => rfl
  | cons c rest ih =>
    simp only [_simulate_losses_go]
    have hcost : ∀ a ∈ List.range c, draw1 (k + a) = draw2 (k + a) := by
      intro a ha
      exact h a (lt_of_lt_of_le (List.mem_range.mp ha) (by simp))
    have hrows :
        List.map (fun a => Row.mk (i + 1) (a + 1) (draw1 (k + a))) (List.range c) =
          List.map (fun a => Row.mk (i + 1) (a + 1) (draw2 (k + a))) (List.range c) :=
      List.map_congr_left (fun a ha => by rw [hcost a ha])
    have htail : _simulate_losses_go draw1 rest (i + 1) (k + c) =
        _simulate_losses_go draw2 rest (i + 1) (k + c) := by
      apply ih
      intro a ha
      have := h (c + a) (by simp; omega)
      simpa [Nat.add_assoc] using this
    rw [List.map_congr_left hcost, hrows, htail]

/-- The attack-count draw only reads the Poisson stream it consumes. -/
theorem attacks_congr (st : SimState) (src1 src2 : RandomSource) (pPos : ℕ)
    (hp : ∀ j, j < st.num_simulations →
      src1.poissonDraws (pPos + j) = src2.poissonDraws (pPos + j)) :
    _simulate_attacks st src1 pPos = _simulate_attacks st src2 pPos :=
  List.map_congr_left (fun j hj => hp j (List.mem_range.mp hj))

/-- Losses produced by the regression fixture. -/
theorem fixture_losses :
    (_simulate_losses stFixture srcFixture 0 [1, 0, 2, 3, 1]).1 = [26/5, 0, 52/5, 78/5, 26/5] := by
  norm_num [_simulate_losses, _simulate_losses_go, sevDraw, stFixture, srcFixture, range5,
    List.range_succ]

/-- Attack counts produced by the regression fixture. -/
theorem fixture_counts : _simulate_attacks stFixture srcFixture 0 = [1, 0, 2, 3, 1] := by
  simp [_simulate_attacks, stFixture, srcFixture, range5]

/-- The regression losses, sorted ascending. -/
theorem fixture_sorted :
    npSorted [(26/5 : ℚ), 0, 52/5, 78/5, 26/5] = [0, 26/5, 26/5, 52/5, 78/5] := by
  norm_num [npSorted, List.insertionSort, List.orderedInsert]

/-- Small integer fact used when evaluating the percentile rank. -/
theorem toNat3 : ((3 : ℤ)).toNat = 3 := rfl

/-- C1: classification is defined exactly on 0 ≤ r ≤ 1000 (with a unique band
for each such r, so the bands are pairwise disjoint and cover the interval);
band boundaries are upper-inclusive, r = 0 and r = 10 map to the 10M band,
r = 1000 to the 1B band, and any r < 0 or r > 1000 raises `InvalidRevenue`. -/
theorem classify_total_on_range_spec :
    (∀ r : ℚ, (0 ≤ r ∧ r ≤ 1000) ↔ ∃! b, get_revenue_band_by_revenue r = .ok b) ∧
    get_revenue_band_by_revenue 0 = .ok .BAND_10M ∧
    get_revenue_band_by_revenue 10 = .ok .BAND_10M ∧
    get_revenue_band_by_revenue 1000 = .ok .BAND_1B ∧
    (∀ r : ℚ, r < 0 ∨ 1000 < r →
      get_revenue_band_by_revenue r = .error (.invalidRevenue r)) := by
  refine ⟨?_, ?_, ?_, ?_, classify_out_of_range⟩
  · intro r
    constructor
    · rintro ⟨h0, h1⟩
      rcases classify_cases r h0 h1 with ⟨-, hb⟩ | ⟨-, -, hb⟩ | ⟨-, -, hb⟩ | ⟨-, -, hb⟩ <;>
        exact ⟨_, hb, fun y hy => by rw [hb] at hy; exact (Except.ok.inj hy).symm⟩
    · rintro ⟨b, hb, -⟩
      by_contra hc
      push_neg at hc
      rcases lt_or_le r 0 with h | h
      · rw [classify_out_of_range r (Or.inl h)] at hb
        exact Except.noConfusion hb
      · rw [classify_out_of_range r (Or.inr (hc h))] at hb
        exact Except.noConfusion hb
  · norm_num [get_revenue_band_by_revenue]
  · norm_num [get_revenue_band_by_revenue]
  · norm_num [get_revenue_band_by_revenue]

/-- C1 witness: r = -1 is out of range and raises `InvalidRevenue`. -/
theorem classify_total_on_range_spec_witness :
    ((-1 : ℚ) < 0 ∨ 1000 < (-1 : ℚ)) ∧
    get_revenue_band_by_revenue (-1) = .error (.invalidRevenue (-1)) := by
  have h : (-1 : ℚ) < 0 ∨ 1000 < (-1 : ℚ) := Or.inl (by norm_num)
  exact ⟨h, classify_total_on_range_spec.2.2.2.2 (-1) h⟩

/-- C2: run_simulation reduces the per-run losses into exactly the seven
numpy statistics (sum, mean, median, population standard deviation, min, max,
95th percentile with linear interpolation); on the regression fixture
(attack counts 1,0,2,3,1, every cost draw 5.2) it returns total 36.4, mean
7.28, median 5.2, min 0, max 15.6; and on a single run with attack count 0
all seven metrics are 0. -/
theorem run_simulation_metrics_spec :
    (∀ l : List ℚ,
      aggregate l =
        { total_loss := l.sum, mean_loss := npMean l, median_loss := npMedian l,
          variance_loss := npVariance l, min_loss := npMin l, max_loss := npMax l,
          percentile_95_loss := npPercentile 95 l } ∧
      (aggregate l).std_dev_loss = Real.sqrt ((npVariance l : ℚ) : ℝ)) ∧
    (∀ (st : SimState) (src : RandomSource) (cur : RngCursor) (save : Bool),
      (run_simulation st src cur save).metrics =
        aggregate (_simulate_losses st src cur.nPos (_simulate_attacks st src cur.pPos)).1) ∧
    ((run_simulation stFixture srcFixture ⟨0, 0⟩ false).metrics.total_loss = 36.4 ∧
     (run_simulation stFixture srcFixture ⟨0, 0⟩ false).metrics.mean_loss = 7.28 ∧
     (run_simulation stFixture srcFixture ⟨0, 0⟩ false).metrics.median_loss = 5.2 ∧
     (run_simulation stFixture srcFixture ⟨0, 0⟩ false).metrics.min_loss = 0 ∧
     (run_simulation stFixture srcFixture ⟨0, 0⟩ false).metrics.max_loss = 15.6 ∧
     (run_simulation stFixture srcFixture ⟨0, 0⟩ false).metrics.percentile_95_loss = 14.56) ∧
    ((run_simulation stOne zeroSrc ⟨0, 0⟩ false).metrics = ⟨0, 0, 0, 0, 0, 0, 0⟩ ∧
     (run_simulation stOne zeroSrc ⟨0, 0⟩ false).metrics.std_dev_loss = 0) := by
  have hz : (run_simulation stOne zeroSrc ⟨0, 0⟩ false).metrics = ⟨0, 0, 0, 0, 0, 0, 0⟩ := by
    norm_num [run_simulation, aggregate, _simulate_attacks, _simulate_losses,
      _simulate_losses_go, sevDraw, stOne, zeroSrc, List.range_succ, npMean, npMedian,
      npSorted, npMin, npMax, npVariance, npPercentile, List.insertionSort,
      List.orderedInsert]
  refine ⟨fun l => ⟨rfl, rfl⟩, fun st src cur save => rfl, ⟨?_, ?_, ?_, ?_, ?_, ?_⟩, hz, ?_⟩
  · norm_num [run_simulation, aggregate, fixture_counts, fixture_losses]
  · norm_num [run_simulation, aggregate, fixture_counts, fixture_losses, npMean]
  · norm_num [run_simulation, aggregate, fixture_counts, fixture_losses, npMedian,
      fixture_sorted]
  · norm_num [run_simulation, aggregate, fixture_counts, fixture_losses, npMin]
  · norm_num [run_simulation, aggregate, fixture_counts, fixture_losses, npMax]
  · norm_num [run_simulation, aggregate, fixture_counts, fixture_losses, npPercentile,
      fixture_sorted, toNat3]
  · rw [hz]
    simp [SimulationMetrics.std_dev_loss]

/-- C3 counterexample: with an empty stats table and the out-of-range revenue
2000, `_get_industry_revenue_params` raises `UnknownIndustry`, not
`InvalidRevenue` — the industry key is checked before the revenue is
classified, contrary to the claim. -/
theorem resolve_industry_checked_first_cex :
    _get_industry_revenue_params [] .FINANCE 2000 = .error (.unknownIndustry "FINANCE") ∧
    _get_industry_revenue_params [] .FINANCE 2000 ≠ .error (.invalidRevenue 2000) := by
  have h : _get_industry_revenue_params [] .FINANCE 2000 =
      .error (.unknownIndustry "FINANCE") := by
    simp [_get_industry_revenue_params, Industry.name, List.lookup]
  refine ⟨h, ?_⟩
  rw [h]
  intro hc
  exact PyExc.noConfusion (Except.error.inj hc)

/-- C3 amended: the resolver checks the industry key FIRST, so an absent
industry raises `UnknownIndustry` regardless of the revenue; `InvalidRevenue`
propagates from classification only when the industry key is present. -/
theorem resolve_error_precedence (stats : StatsTable) (industry : Industry) (revenue : ℚ) :
    (stats.lookup (pyLower industry.name) = none →
      _get_industry_revenue_params stats industry revenue =
        .error (.unknownIndustry industry.name)) ∧
    (∀ bandTable, stats.lookup (pyLower industry.name) = some bandTable →
      (revenue < 0 ∨ 1000 < revenue) →
      _get_industry_revenue_params stats industry revenue =
        .error (.invalidRevenue revenue)) := by
  constructor
  · intro h
    unfold _get_industry_revenue_params
    rw [h]
  · intro bandTable hbt hr
    unfold _get_industry_revenue_params
    rw [hbt, classify_out_of_range revenue hr]

/-- C3 witness: the fixture table has no finance key, so resolution of
finance fails with `UnknownIndustry` even at revenue 2000. -/
theorem resolve_error_precedence_witness :
    statsFixture.lookup (pyLower Industry.FINANCE.name) = none ∧
    _get_industry_revenue_params statsFixture .FINANCE 2000 =
      .error (.unknownIndustry "FINANCE") := by
  have h : statsFixture.lookup (pyLower Industry.FINANCE.name) = none := by decide
  exact ⟨h, (resolve_error_precedence statsFixture .FINANCE 2000).1 h⟩

/-- C4 counterexample: constructing the simulator with run count 0 succeeds —
no `InvalidRunCount` (nor any other) error is raised at construction. -/
theorem init_accepts_zero_run_count_cex :
    CyberRiskSimulator.init statsFixture .HEALTHCARE 100 0 =
      .ok { industry := .HEALTHCARE, revenue := 100, num_simulations := 0,
            freq_param := 0.3, sev_param := 5.2, results := [] } := by
  norm_num [CyberRiskSimulator.init, _get_industry_revenue_params, statsFixture, Industry.name,
    get_revenue_band_by_revenue, RevenueBand.value, List.lookup, pyLower_HEALTHCARE]

/-- C4 amended: `__init__` performs no run-count validation at all — its
outcome is the outcome of parameter resolution, with the run count stored
verbatim (any value, 0 included, is accepted). -/
theorem init_ignores_run_count (stats : StatsTable) (industry : Industry) (revenue : ℚ)
    (num_simulations : ℕ) :
    CyberRiskSimulator.init stats industry revenue num_simulations =
      (_get_industry_revenue_params stats industry revenue).map
        (fun p => { industry := industry, revenue := revenue,
                    num_simulations := num_simulations,
                    freq_param := p.1, sev_param := p.2, results := [] }) := by
  unfold CyberRiskSimulator.init
  cases _get_industry_revenue_params stats industry revenue with
  | error e => rfl
  | ok p => rfl

/-- C5: the loss array has one entry per run; run j's total is exactly the
sum of one `norm.rvs(sev, sev * 0.1)` draw per attack of that run (mean the
severity parameter, standard deviation 0.1 times it), taken at the stream
positions following the earlier runs' draws and added unmodified; a negative
draw flows through unclamped, yielding a negative loss. -/
theorem simulate_losses_normal_draw_spec :
    (∀ (st : SimState) (src : RandomSource) (nPos : ℕ) (counts : List ℕ),
      (_simulate_losses st src nPos counts).1.length = counts.length) ∧
    (∀ (st : SimState) (src : RandomSource) (nPos : ℕ) (counts : List ℕ) (j : ℕ),
      j < counts.length →
      (_simulate_losses st src nPos counts).1.getD j 0 =
        ((List.range (counts.getD j 0)).map
          (fun a => src.normDraws (nPos + ((counts.take j).sum + a))
            st.sev_param (st.sev_param * (1 / 10)))).sum) ∧
    (_simulate_losses stOne negSrc 0 [1]).1 = [-3] := by
  refine ⟨fun st src nPos counts => go_length _ counts 0 0, ?_, ?_⟩
  · intro st src nPos counts j h
    unfold _simulate_losses
    rw [go_getD _ counts 0 0 j h]
    simp [sevDraw, Nat.add_assoc]
  · norm_num [_simulate_losses, _simulate_losses_go, sevDraw, stOne, negSrc]

/-- C5 witness: a run of 2 attacks, evaluated at index 0. -/
theorem simulate_losses_normal_draw_spec_witness :
    0 < ([2] : List ℕ).length ∧
    (_simulate_losses stOne negSrc 0 [2]).1.getD 0 0 =
      ((List.range (([2] : List ℕ).getD 0 0)).map
        (fun a => negSrc.normDraws (0 + ((([2] : List ℕ).take 0).sum + a))
          stOne.sev_param (stOne.sev_param * (1 / 10)))).sum :=
  ⟨by decide, simulate_losses_normal_draw_spec.2.1 stOne negSrc 0 [2] 0 (by decide)⟩

/-- C6 counterexample: under one fixed random source (one fixed seed of the
process-global stream the code draws from), two successive invocations of
`run_simulation` consume successive stream segments and return different
metrics — and the code offers no injectable random source: the streams here
model the module-level `poisson.rvs` / `norm.rvs` that tests can only
monkey-patch. -/
theorem run_twice_fixed_source_differs_cex :
    (run_simulation stOne divergeSrc ⟨0, 0⟩ false).metrics ≠
      (run_simulation (run_simulation stOne divergeSrc ⟨0, 0⟩ false).state divergeSrc
        (run_simulation stOne divergeSrc ⟨0, 0⟩ false).cursor false).metrics := by
  intro h
  have h' := congrArg SimulationMetrics.total_loss h
  norm_num [run_simulation, _simulate_attacks, _simulate_losses, _simulate_losses_go, sevDraw,
    aggregate, stOne, divergeSrc, List.range_succ] at h'

/-- C6 amended: the simulation's entire outcome is a deterministic pure
function of the draws it consumes — two sources that agree on the consumed
prefix of the Poisson stream and of the Normal stream yield identical
`RunOutcome`s (so injecting fixed draws, as the tests do by patching
`poisson.rvs`/`norm.rvs`, reproduces the output exactly). -/
theorem run_determined_by_consumed_draws (st : SimState) (cur : RngCursor) (save : Bool)
    (src1 src2 : RandomSource)
    (hp : ∀ j, j < st.num_simulations →
      src1.poissonDraws (cur.pPos + j) = src2.poissonDraws (cur.pPos + j))
    (hn : ∀ k, k < (_simulate_attacks st src1 cur.pPos).sum → ∀ m s,
      src1.normDraws (cur.nPos + k) m s = src2.normDraws (cur.nPos + k) m s) :
    run_simulation st src1 cur save = run_simulation st src2 cur save := by
  have hc : _simulate_attacks st src1 cur.pPos = _simulate_attacks st src2 cur.pPos :=
    attacks_congr st src1 src2 cur.pPos hp
  have hgo : _simulate_losses_go (fun k => sevDraw st src1 (cur.nPos + k))
      (_simulate_attacks st src1 cur.pPos) 0 0 =
      _simulate_losses_go (fun k => sevDraw st src2 (cur.nPos + k))
        (_simulate_attacks st src1 cur.pPos) 0 0 := by
    apply go_congr
    intro a ha
    simpa [sevDraw] using hn (0 + a) (by simpa using ha) st.sev_param (st.sev_param * (1 / 10))
  unfold run_simulation _simulate_losses
  rw [← hc]
  simp only [hgo]

/-- C6 witness: two sources that agree only on the consumed draws (Poisson
index 0, Normal call 0 of a 1-run invocation) produce identical outcomes. -/
theorem run_determined_by_consumed_draws_witness :
    (∀ j, j < stOne.num_simulations →
      divergeSrc.poissonDraws (0 + j) = divergeSrcAgree.poissonDraws (0 + j)) ∧
    (∀ k, k < (_simulate_attacks stOne divergeSrc 0).sum → ∀ m s,
      divergeSrc.normDraws (0 + k) m s = divergeSrcAgree.normDraws (0 + k) m s) ∧
    run_simulation stOne divergeSrc ⟨0, 0⟩ false =
      run_simulation stOne divergeSrcAgree ⟨0, 0⟩ false := by
  have hp : ∀ j, j < stOne.num_simulations →
      divergeSrc.poissonDraws (0 + j) = divergeSrcAgree.poissonDraws (0 + j) := by
    intro j hj
    have hj0 : j = 0 := by simpa [stOne] using hj
    subst hj0
    rfl
  have hn : ∀ k, k < (_simulate_attacks stOne divergeSrc 0).sum → ∀ m s,
      divergeSrc.normDraws (0 + k) m s = divergeSrcAgree.normDraws (0 + k) m s := by
    intro k hk m s
    have hsum : (_simulate_attacks stOne divergeSrc 0).sum = 1 := by decide
    rw [hsum] at hk
    have hk0 : k = 0 := by omega
    subst hk0
    rfl
  exact ⟨hp, hn,
    run_determined_by_consumed_draws stOne ⟨0, 0⟩ false divergeSrc divergeSrcAgree hp hn⟩

/-- C7 counterexample: with `save_to_csv = false` (the default), a run leaves
its 7 per-event rows in `self.results`, and a second invocation appends 7
more — rows are retained and accumulate across calls. -/
theorem results_retained_by_default_cex :
    (run_simulation stFixture srcFixture ⟨0, 0⟩ false).state.results.length = 7 ∧
    (run_simulation (run_simulation stFixture srcFixture ⟨0, 0⟩ false).state srcFixture
        (run_simulation stFixture srcFixture ⟨0, 0⟩ false).cursor false).state.results.length =
      14 := by
  constructor <;>
    norm_num [run_simulation, _simulate_attacks, _simulate_losses, _simulate_losses_go, sevDraw,
      stFixture, srcFixture, range5, List.range_succ]

/-- C7 amended: every `run_simulation` call — whatever `save_to_csv` is —
appends the per-event rows of this call to `self.results` (so rows persist in
engine state and accumulate across invocations); `save_to_csv` only controls
whether the accumulated table is additionally exported. -/
theorem results_accumulate_spec (st : SimState) (src : RandomSource) (cur : RngCursor)
    (save : Bool) :
    (run_simulation st src cur save).state.results =
      st.results ++
        (_simulate_losses_go (fun k => sevDraw st src (cur.nPos + k))
          (_simulate_attacks st src cur.pPos) 0 0).2 ∧
    (run_simulation st src cur save).csvRows =
      (if save then some ((run_simulation st src cur save).state.results) else none) :=
  ⟨rfl, rfl⟩

/-- C8: the bounds lookup maps the four enum members to their boundary pairs,
but on any other input the default arm fails with a `NameError` — the
error-log f-string references the unbound name `revenue` — so the intended
`ValueError` is never reached. -/
theorem bounds_total_with_name_error_default :
    get_revenue_boundaries_by_band (.known .BAND_10M) = .ok (0, 10) ∧
    get_revenue_boundaries_by_band (.known .BAND_100M) = .ok (10, 100) ∧
    get_revenue_boundaries_by_band (.known .BAND_500M) = .ok (100, 500) ∧
    get_revenue_boundaries_by_band (.known .BAND_1B) = .ok (500, 1000) ∧
    get_revenue_boundaries_by_band .foreign = .error .nameErrorRevenueUndefined ∧
    (∀ e : PyExc, get_revenue_boundaries_by_band .foreign = .error e →
      e.isValueError = false) := by
  refine ⟨rfl, rfl, rfl, rfl, rfl, ?_⟩
  intro e he
  cases Except.error.inj he
  rfl

/-- C8 witness: the default-arm failure is the `NameError`, not a ValueError. -/
theorem bounds_total_with_name_error_default_witness :
    get_revenue_boundaries_by_band .foreign = .error .nameErrorRevenueUndefined ∧
    PyExc.isValueError .nameErrorRevenueUndefined = false :=
  ⟨rfl, bounds_total_with_name_error_default.2.2.2.2.2 .nameErrorRevenueUndefined rfl⟩

/-- C9: for every valid revenue r, the boundary pair of the band r classifies
into contains r (lower ≤ r ≤ upper). -/
theorem bounds_classify_contains_revenue (r : ℚ) (h0 : 0 ≤ r) (h1 : r ≤ 1000) :
    ∃ b lo hi, get_revenue_band_by_revenue r = .ok b ∧
      get_revenue_boundaries_by_band (.known b) = .ok (lo, hi) ∧ lo ≤ r ∧ r ≤ hi := by
  rcases classify_cases r h0 h1 with ⟨h, hb⟩ | ⟨h, h', hb⟩ | ⟨h, h', hb⟩ | ⟨h, h', hb⟩
  · exact ⟨.BAND_10M, 0, 10, hb, rfl, h0, h⟩
  · exact ⟨.BAND_100M, 10, 100, hb, rfl, le_of_lt h, h'⟩
  · exact ⟨.BAND_500M, 100, 500, hb, rfl, le_of_lt h, h'⟩
  · exact ⟨.BAND_1B, 500, 1000, hb, rfl, le_of_lt h, h'⟩

/-- C9 witness: r = 50 lies within the bounds of its band. -/
theorem bounds_classify_contains_revenue_witness :
    (0 : ℚ) ≤ 50 ∧ (50 : ℚ) ≤ 1000 ∧
    ∃ b lo hi, get_revenue_band_by_revenue 50 = .ok b ∧
      get_revenue_boundaries_by_band (.known b) = .ok (lo, hi) ∧ lo ≤ 50 ∧ (50 : ℚ) ≤ hi :=
  ⟨by norm_num, by norm_num,
    bounds_classify_contains_revenue 50 (by norm_num) (by norm_num)⟩

/-- C10: parse_revenue_band returns the matching band for each of the four
labels and `none` (never an error) for every other string, while
`Industry.from_string` raises `ValueError` on an invalid industry string. -/
theorem parse_revenue_band_vs_from_string :
    parse_revenue_band "10M" = some .BAND_10M ∧
    parse_revenue_band "100M" = some .BAND_100M ∧
    parse_revenue_band "500M" = some .BAND_500M ∧
    parse_revenue_band "1B" = some .BAND_1B ∧
    (∀ s : String, s ≠ "10M" → s ≠ "100M" → s ≠ "500M" → s ≠ "1B" →
      parse_revenue_band s = none) ∧
    (∀ s : String, industryMembers.lookup (pyUpper s) = none →
      Industry.from_string s = .error (.invalidIndustryString s)) ∧
    Industry.from_string "tech" = .error (.invalidIndustryString "tech") := by
  refine ⟨by decide, by decide, by decide, by decide, ?_, ?_, by decide⟩
  · intro s h1 h2 h3 h4
    have e1 : (s == "10M") = false := beq_eq_false_iff_ne.mpr h1
    have e2 : (s == "100M") = false := beq_eq_false_iff_ne.mpr h2
    have e3 : (s == "500M") = false := beq_eq_false_iff_ne.mpr h3
    have e4 : (s == "1B") = false := beq_eq_false_iff_ne.mpr h4
    simp [parse_revenue_band, revenue_band_dict, RevenueBand.value, List.lookup, e1, e2, e3, e4]
  · intro s hs
    unfold Industry.from_string
    rw [hs]

/-- C10 witness: the non-label string XL parses to `none`. -/
theorem parse_revenue_band_vs_from_string_witness :
    parse_revenue_band "XL" = none :=
  parse_revenue_band_vs_from_string.2.2.2.2.1 "XL" (by decide) (by decide) (by decide)
    (by decide)

end CyberRisk
